import Mathlib

/-!
Shallow embedding of `src/aquisition.py` (class `AquisitionDBStore`).

Numeric payload values (`val`) are modelled as rationals: the Python code
converts the JSON values with `float(...)` and the claims are about the
arithmetic structure of the decoding and aggregation, carried out here in
exact arithmetic.

Python exceptions are modelled with `Except`:
  * `IndexError("Inverter index out of range")` raised by the guard at the
    top of `num_cells` / `cell_power` / ... becomes
    `AqError.inverterIndexOutOfRange`;
  * `IndexError` raised by `list.pop()` on an empty list becomes
    `AqError.popFromEmptyList`;
  * `UnboundLocalError` for a local variable read before any assignment
    (e.g. `timestamp` at the `sum_data` line when the inverter loop never
    ran, or `power_in` in the post-commit logging when the meter branch was
    skipped) becomes `AqError.unboundLocal name`.

Timestamps (`datetime.now()`) carry no information relevant to the claims;
rows are modelled without them, but the *binding status* of the Python local
`timestamp` is modelled faithfully, because reading it while unbound raises.
-/

namespace Aquisition

/-- One `{"fld": code, "val": value}` pair from the DTU payload. -/
structure FieldEntry where
  fld : String
  val : ℚ
  deriving DecidableEq

/-- One inverter's raw ordered field-entry array. -/
abbrev InverterPayload := List FieldEntry

/-- `self.dtu_data["inverter"]`: one array per inverter. -/
abbrev DtuData := List InverterPayload

/-- Python exceptions raised by the acquisition code. -/
inductive AqError where
  | inverterIndexOutOfRange
  | popFromEmptyList
  | unboundLocal (name : String)
  deriving DecidableEq

/-- The values of all entries with field code `code`, in arrival order
(the repeated `for item in ...: if item["fld"] == code: acc.append(item["val"])`
loop shared by every accessor). -/
def fieldVals (code : String) (payload : InverterPayload) : List ℚ :=
  (payload.filter (fun item => item.fld == code)).map FieldEntry.val

/-- `len(self.dtu_data["inverter"])`. -/
def num_inverter (dtu : DtuData) : Nat :=
  dtu.length

/-- `num_cells`: guard on the inverter index, then
`sum(1 for item in ... if item["fld"] == "P_DC") - 1` (Python int
subtraction, so the result is `-1` when no `P_DC` entry exists). -/
def num_cells (dtu : DtuData) (inverter : Nat) : Except AqError Int :=
  if inverter ≥ num_inverter dtu then .error .inverterIndexOutOfRange
  else
    let p_dc_count := (dtu.getD inverter []).countP (fun item => item.fld == "P_DC")
    .ok ((p_dc_count : Int) - 1)

/-- Common body of `cell_power` / `cell_voltage` / `cell_current` /
`cell_yield_day` / `cell_yield_total`: guard on the index, collect the
values of `code`, then `pop()` the last element (raising on an empty
list) and return the rest. -/
def cellSeries (code : String) (dtu : DtuData) (inverter : Nat) :
    Except AqError (List ℚ) :=
  if inverter ≥ num_inverter dtu then .error .inverterIndexOutOfRange
  else
    let vals := fieldVals code (dtu.getD inverter [])
    if vals.isEmpty then .error .popFromEmptyList
    else .ok vals.dropLast

/-- `cell_power`: the `P_DC` series with the trailing total popped. -/
def cell_power (dtu : DtuData) (inverter : Nat) : Except AqError (List ℚ) :=
  cellSeries "P_DC" dtu inverter

/-- `cell_voltage`: the `U_DC` series with the trailing total popped. -/
def cell_voltage (dtu : DtuData) (inverter : Nat) : Except AqError (List ℚ) :=
  cellSeries "U_DC" dtu inverter

/-- `cell_current`: the `I_DC` series with the trailing total popped. -/
def cell_current (dtu : DtuData) (inverter : Nat) : Except AqError (List ℚ) :=
  cellSeries "I_DC" dtu inverter

/-- `cell_yield_day`: the `YieldDay` series with the trailing total popped. -/
def cell_yield_day (dtu : DtuData) (inverter : Nat) : Except AqError (List ℚ) :=
  cellSeries "YieldDay" dtu inverter

/-- `cell_yield_total`: the `YieldTotal` series with the trailing total popped. -/
def cell_yield_total (dtu : DtuData) (inverter : Nat) : Except AqError (List ℚ) :=
  cellSeries "YieldTotal" dtu inverter

/-- `cell_irradiation`: guard on the index, collect every `Irradiation`
value — no `pop()` of a trailing total. -/
def cell_irradiation (dtu : DtuData) (inverter : Nat) : Except AqError (List ℚ) :=
  if inverter ≥ num_inverter dtu then .error .inverterIndexOutOfRange
  else .ok (fieldVals "Irradiation" (dtu.getD inverter []))

/-- Common body of `inverter_power` / `inverter_yield_day` /
`inverter_yield_total`: the loop `for item: if fld == code: x = item["val"]`
leaves `x` holding the LAST matching value; with no match, `x` stays
unbound and reading it raises `UnboundLocalError`. Python list indexing
`self.dtu_data["inverter"][inverter]` itself raises `IndexError` when the
index is out of range. -/
def lastVal (code : String) (dtu : DtuData) (inverter : Nat) : Except AqError ℚ :=
  if inverter ≥ num_inverter dtu then .error .inverterIndexOutOfRange
  else
    match (fieldVals code (dtu.getD inverter [])).getLast? with
    | some v => .ok v
    | none => .error (.unboundLocal code)

/-- `inverter_power`: the last `P_AC` value, taken as-is. -/
def inverter_power (dtu : DtuData) (inverter : Nat) : Except AqError ℚ :=
  lastVal "P_AC" dtu inverter

/-- `inverter_yield_day`: the last `YieldDay` value divided by 1000
(`float(x) / 1000  # Convert to kWh`). -/
def inverter_yield_day (dtu : DtuData) (inverter : Nat) : Except AqError ℚ :=
  match lastVal "YieldDay" dtu inverter with
  | .ok v => .ok (v / 1000)
  | .error e => .error e

/-- `inverter_yield_total`: the last `YieldTotal` value divided by 1000. -/
def inverter_yield_total (dtu : DtuData) (inverter : Nat) : Except AqError ℚ :=
  match lastVal "YieldTotal" dtu inverter with
  | .ok v => .ok (v / 1000)
  | .error e => .error e

/-- The last value of `code` in `payload`, defaulting to `0` when absent —
used only to *state* properties of successful runs (in which case the
default is never taken). -/
def rawLast (code : String) (payload : InverterPayload) : ℚ :=
  ((fieldVals code payload).getLast?).getD 0

/-- The inner sub-object of the Tasmota `StatusSNS` payload: a JSON object
whose four fields of interest may each be present or absent. -/
structure MeterInner where
  total_out : Option ℚ
  total_in : Option ℚ
  power_in : Option ℚ
  meter_number : Option String
  deriving DecidableEq

/-- `self.tasmota_data`: the `StatusSNS` object, a dict mapping sub-object
names (possibly the empty string) to inner objects. -/
abbrev TasmotaData := List (String × MeterInner)

/-- The empty inner object, the `{}` default of `dict.get("", {})`. -/
def emptyInner : MeterInner :=
  ⟨none, none, none, none⟩

/-- `self.tasmota_data.get("", {})`: the sub-object stored under the
empty-string key, or the empty object when that key is absent. -/
def innerOf (d : TasmotaData) : MeterInner :=
  (d.lookup "").getD emptyInner

/-- One row of the `inverter_data` table (the timestamp column is
omitted, see the file header). -/
structure InverterRow where
  inverter : Nat
  numCells : Int
  power : ℚ
  yieldDay : ℚ
  yieldTotal : ℚ
  deriving DecidableEq

/-- The `inverter_sum_data` row for the cycle. -/
structure SumRow where
  powerSum : ℚ
  yieldDaySum : ℚ
  yieldTotalSum : ℚ
  deriving DecidableEq

/-- The `energy_meter_data` row for the cycle. -/
structure MeterRow where
  totalOut : ℚ
  totalIn : ℚ
  powerIn : ℚ
  meterNumber : String
  deriving DecidableEq

/-- The observable outcome of a `dump_to_db` call that reached
`conn.commit()`: the committed rows, plus the exception (if any) raised by
the logging code that runs *after* the commit. -/
structure DumpResult where
  inverterRows : List InverterRow
  sumRow : SumRow
  meterRow : Option MeterRow
  logError : Option AqError
  deriving DecidableEq

/-- One pass of the `for inverter in range(self.num_inverter)` loop body:
`inverter_power`, `inverter_yield_day`, `inverter_yield_total`,
`num_cells` are called in that order and the row tuple is built; the first
exception aborts the call. -/
def inverterRow (dtu : DtuData) (i : Nat) : Except AqError InverterRow :=
  match inverter_power dtu i, inverter_yield_day dtu i,
        inverter_yield_total dtu i, num_cells dtu i with
  | .ok p, .ok yd, .ok yt, .ok nc => .ok ⟨i, nc, p, yd, yt⟩
  | .error e, _, _, _ => .error e
  | _, .error e, _, _ => .error e
  | _, _, .error e, _ => .error e
  | _, _, _, .error e => .error e

/-- The inverter loop of `dump_to_db`, run over a list of indices:
sequential, the first exception propagates. -/
def processRows (dtu : DtuData) : List Nat → Except AqError (List InverterRow)
  | [] => .ok []
  | i :: rest =>
    match inverterRow dtu i, processRows dtu rest with
    | .ok row, .ok rows => .ok (row :: rows)
    | .error e, _ => .error e
    | _, .error e => .error e

/-- The meter branch of `dump_to_db`: `if self.tasmota_data:` (a `None` or
empty dict is falsy and skips the branch), then the four
`.get("", {}).get(field, default)` extractions. -/
def mkMeterRow : Option TasmotaData → Option MeterRow
  | none => none
  | some d =>
    if d.isEmpty then none
    else
      some ⟨(innerOf d).total_out.getD 0, (innerOf d).total_in.getD 0,
            (innerOf d).power_in.getD 0, (innerOf d).meter_number.getD ""⟩

/-- The data-handling core of `dump_to_db` (connection handling, table
creation and SQL execution are plumbing; the rows passed to the insert
statements and the exceptions raised are modelled):
1. the inverter loop builds one row per inverter and accumulates the sums;
2. `sum_data = (timestamp, ...)` reads the loop-local `timestamp`, which is
   unbound when the loop ran zero times — `UnboundLocalError`;
3. the meter branch runs only when `self.tasmota_data` is truthy;
4. after `conn.commit()`, the logging reads `power_in`, which is unbound
   when the meter branch was skipped — recorded as `logError` because the
   committed rows persist. -/
def dump_to_db (dtu : DtuData) (tasmota : Option TasmotaData) :
    Except AqError DumpResult :=
  match processRows dtu (List.range (num_inverter dtu)) with
  | .error e => .error e
  | .ok rows =>
    if num_inverter dtu = 0 then .error (.unboundLocal "timestamp")
    else
      .ok ⟨rows,
           ⟨(rows.map InverterRow.power).sum,
            (rows.map InverterRow.yieldDay).sum,
            (rows.map InverterRow.yieldTotal).sum⟩,
           mkMeterRow tasmota,
           if (mkMeterRow tasmota).isNone
           then some (.unboundLocal "power_in") else none⟩

/-! ### Helper lemmas -/

theorem fieldVals_length (code : String) (p : InverterPayload) :
    (fieldVals code p).length = p.countP (fun item => item.fld == code) := by
  simp [fieldVals, List.countP_eq_length_filter]

theorem num_cells_eq (dtu : DtuData) (i : Nat) (hi : i < dtu.length) :
    num_cells dtu i =
      .ok (((fieldVals "P_DC" (dtu.getD i [])).length : Int) - 1) := by
  unfold num_cells
  rw [if_neg (by simp [num_inverter]; omega), fieldVals_length]

theorem cellSeries_pos (code : String) (dtu : DtuData) (i : Nat)
    (hi : i < dtu.length) (h : fieldVals code (dtu.getD i []) ≠ []) :
    cellSeries code dtu i = .ok (fieldVals code (dtu.getD i [])).dropLast := by
  unfold cellSeries
  rw [if_neg (by simp [num_inverter]; omega)]
  simp only [List.isEmpty_iff]
  rw [if_neg h]

theorem cellSeries_nil (code : String) (dtu : DtuData) (i : Nat)
    (hi : i < dtu.length) (h : fieldVals code (dtu.getD i []) = []) :
    cellSeries code dtu i = .error .popFromEmptyList := by
  unfold cellSeries
  rw [if_neg (by simp [num_inverter]; omega)]
  simp only [List.isEmpty_iff]
  rw [if_pos h]

theorem cellSeries_ok_iff (code : String) (dtu : DtuData) (i : Nat)
    (hi : i < dtu.length) :
    (∃ l, cellSeries code dtu i = .ok l) ↔
      1 ≤ (fieldVals code (dtu.getD i [])).length := by
  constructor
  · rintro ⟨l, hl⟩
    by_contra hlen
    have hnil : fieldVals code (dtu.getD i []) = [] := by
      cases h : fieldVals code (dtu.getD i []) with
      | nil => rfl
      | cons a as => rw [h] at hlen; simp at hlen
    rw [cellSeries_nil code dtu i hi hnil] at hl
    exact absurd hl (by simp)
  · intro hlen
    have hne : fieldVals code (dtu.getD i []) ≠ [] := by
      intro h; rw [h] at hlen; simp at hlen
    exact ⟨_, cellSeries_pos code dtu i hi hne⟩

theorem lastVal_ok (code : String) (dtu : DtuData) (i : Nat) (v : ℚ)
    (h : lastVal code dtu i = .ok v) :
    (fieldVals code (dtu.getD i [])).getLast? = some v := by
  unfold lastVal at h
  by_cases hi : i ≥ num_inverter dtu
  · rw [if_pos hi] at h; exact absurd h (by simp)
  · rw [if_neg hi] at h
    cases hlast : (fieldVals code (dtu.getD i [])).getLast? with
    | some w => rw [hlast] at h; cases h; rfl
    | none => rw [hlast] at h; exact absurd h (by simp)

theorem lastVal_ok_rawLast (code : String) (dtu : DtuData) (i : Nat) (v : ℚ)
    (h : lastVal code dtu i = .ok v) :
    rawLast code (dtu.getD i []) = v := by
  rw [rawLast, lastVal_ok code dtu i v h]
  rfl

theorem inverterRow_ok (dtu : DtuData) (i : Nat) (row : InverterRow)
    (h : inverterRow dtu i = .ok row) :
    row.power = rawLast "P_AC" (dtu.getD i []) ∧
    row.yieldDay = rawLast "YieldDay" (dtu.getD i []) / 1000 ∧
    row.yieldTotal = rawLast "YieldTotal" (dtu.getD i []) / 1000 := by
  unfold inverterRow at h
  cases hp : inverter_power dtu i with
  | error e => rw [hp] at h; exact absurd h (by simp)
  | ok p =>
    cases hyd : inverter_yield_day dtu i with
    | error e => rw [hp, hyd] at h; exact absurd h (by simp)
    | ok yd =>
      cases hyt : inverter_yield_total dtu i with
      | error e => rw [hp, hyd, hyt] at h; exact absurd h (by simp)
      | ok yt =>
        cases hnc : num_cells dtu i with
        | error e => rw [hp, hyd, hyt, hnc] at h; exact absurd h (by simp)
        | ok nc =>
          rw [hp, hyd, hyt, hnc] at h
          cases h
          refine ⟨lastVal_ok_rawLast _ dtu i p hp |>.symm, ?_, ?_⟩
          · unfold inverter_yield_day at hyd
            cases hl : lastVal "YieldDay" dtu i with
            | error e => rw [hl] at hyd; exact absurd hyd (by simp)
            | ok v =>
              rw [hl] at hyd; cases hyd
              rw [lastVal_ok_rawLast _ dtu i v hl]
          · unfold inverter_yield_total at hyt
            cases hl : lastVal "YieldTotal" dtu i with
            | error e => rw [hl] at hyt; exact absurd hyt (by simp)
            | ok v =>
              rw [hl] at hyt; cases hyt
              rw [lastVal_ok_rawLast _ dtu i v hl]

theorem processRows_ok (dtu : DtuData) :
    ∀ (l : List Nat) (rows : List InverterRow),
      processRows dtu l = .ok rows →
      rows.map InverterRow.power =
        l.map (fun i => rawLast "P_AC" (dtu.getD i [])) ∧
      rows.map InverterRow.yieldDay =
        l.map (fun i => rawLast "YieldDay" (dtu.getD i []) / 1000) ∧
      rows.map InverterRow.yieldTotal =
        l.map (fun i => rawLast "YieldTotal" (dtu.getD i []) / 1000) := by
  intro l
  induction l with
  | nil =>
    intro rows h
    unfold processRows at h
    cases h
    simp
  | cons i rest ih =>
    intro rows h
    unfold processRows at h
    cases hr : inverterRow dtu i with
    | error e => rw [hr] at h; exact absurd h (by simp)
    | ok row =>
      cases hrest : processRows dtu rest with
      | error e => rw [hr, hrest] at h; exact absurd h (by simp)
      | ok rows0 =>
        rw [hr, hrest] at h
        cases h
        obtain ⟨h1, h2, h3⟩ := inverterRow_ok dtu i row hr
        obtain ⟨ih1, ih2, ih3⟩ := ih rows0 hrest
        simp only [List.map_cons]
        exact ⟨by rw [h1, ih1], by rw [h2, ih2], by rw [h3, ih3]⟩

theorem range_getD_map {α β : Type} (g : α → β) (d : α) :
    ∀ (l : List α),
      (List.range l.length).map (fun i => g (l.getD i d)) = l.map g := by
  intro l
  induction l with
  | nil => simp
  | cons x xs ih =>
    rw [List.length_cons, List.range_succ_eq_map, List.map_cons, List.map_map]
    simp only [List.getD_cons_zero, Function.comp_def, Nat.succ_eq_add_one,
      List.getD_cons_succ, List.map_cons]
    rw [ih]

theorem dump_ok_parts (dtu : DtuData) (tasmota : Option TasmotaData)
    (r : DumpResult) (h : dump_to_db dtu tasmota = .ok r) :
    processRows dtu (List.range (num_inverter dtu)) = .ok r.inverterRows ∧
    num_inverter dtu ≠ 0 ∧
    r.sumRow = ⟨(r.inverterRows.map InverterRow.power).sum,
                (r.inverterRows.map InverterRow.yieldDay).sum,
                (r.inverterRows.map InverterRow.yieldTotal).sum⟩ ∧
    r.meterRow = mkMeterRow tasmota ∧
    r.logError = (if (mkMeterRow tasmota).isNone
                  then some (.unboundLocal "power_in") else none) := by
  unfold dump_to_db at h
  split at h
  next e heq => exact absurd h (by simp)
  next rows heq =>
    split at h
    next hz => exact absurd h (by simp)
    next hz =>
      cases h
      exact ⟨heq, hz, rfl, rfl, rfl⟩

theorem dump_ok_sums (dtu : DtuData) (tasmota : Option TasmotaData)
    (r : DumpResult) (h : dump_to_db dtu tasmota = .ok r) :
    r.sumRow.powerSum = (dtu.map (fun p => rawLast "P_AC" p)).sum ∧
    r.sumRow.yieldDaySum =
      (dtu.map (fun p => rawLast "YieldDay" p / 1000)).sum ∧
    r.sumRow.yieldTotalSum =
      (dtu.map (fun p => rawLast "YieldTotal" p / 1000)).sum := by
  obtain ⟨hp, -, hs, -, -⟩ := dump_ok_parts dtu tasmota r h
  obtain ⟨h1, h2, h3⟩ := processRows_ok dtu _ _ hp
  rw [hs]
  refine ⟨?_, ?_, ?_⟩
  · show (r.inverterRows.map InverterRow.power).sum = _
    rw [h1, num_inverter, range_getD_map]
  · show (r.inverterRows.map InverterRow.yieldDay).sum = _
    rw [h2, num_inverter,
      range_getD_map (fun p => rawLast "YieldDay" p / 1000) []]
  · show (r.inverterRows.map InverterRow.yieldTotal).sum = _
    rw [h3, num_inverter,
      range_getD_map (fun p => rawLast "YieldTotal" p / 1000) []]

theorem sum_map_div (l : List ℚ) (c : ℚ) :
    (l.map (fun x => x / c)).sum = l.sum / c := by
  induction l with
  | nil => simp
  | cons x xs ih => simp [ih, add_div]

theorem cellSeries_oob (code : String) (dtu : DtuData) (i : Nat)
    (hi : dtu.length ≤ i) :
    cellSeries code dtu i = .error .inverterIndexOutOfRange := by
  unfold cellSeries
  rw [if_pos (show i ≥ num_inverter dtu from hi)]

theorem num_cells_oob (dtu : DtuData) (i : Nat) (hi : dtu.length ≤ i) :
    num_cells dtu i = .error .inverterIndexOutOfRange := by
  unfold num_cells
  rw [if_pos (show i ≥ num_inverter dtu from hi)]

theorem cellSeries_drops_last (code : String) (dtu : DtuData) (i : Nat)
    (hi : i < dtu.length)
    (hN : 1 ≤ (fieldVals code (dtu.getD i [])).length) :
    ∃ l, cellSeries code dtu i = .ok l ∧
      l.length = (fieldVals code (dtu.getD i [])).length - 1 := by
  have hne : fieldVals code (dtu.getD i []) ≠ [] := by
    intro h; rw [h] at hN; simp at hN
  exact ⟨_, cellSeries_pos code dtu i hi hne, List.length_dropLast _⟩

/-! ### Concrete payloads used by witnesses and counterexamples -/

/-- The spec's scenario payload: three `P_DC` and three `U_DC` entries. -/
def scenarioPayload : InverterPayload :=
  [⟨"P_DC", 100⟩, ⟨"P_DC", 50⟩, ⟨"P_DC", 150⟩,
   ⟨"U_DC", 40⟩, ⟨"U_DC", 38⟩, ⟨"U_DC", 78⟩]

/-- A DTU response holding only the scenario inverter. -/
def scenarioDtu : DtuData :=
  [scenarioPayload]

/-- A fully-populated inverter: two cells, AC power 150, day yield 500 Wh,
total yield 1500 Wh, two irradiation entries. -/
def fullPayload : InverterPayload :=
  [⟨"P_DC", 100⟩, ⟨"P_DC", 150⟩, ⟨"U_DC", 40⟩, ⟨"U_DC", 78⟩,
   ⟨"I_DC", 2⟩, ⟨"I_DC", 4⟩, ⟨"Irradiation", 95⟩, ⟨"Irradiation", 97⟩,
   ⟨"P_AC", 150⟩, ⟨"YieldDay", 500⟩, ⟨"YieldTotal", 1500⟩]

/-- A second inverter: AC power 200, day yield 300 Wh, total 2500 Wh. -/
def smallPayload : InverterPayload :=
  [⟨"P_DC", 200⟩, ⟨"P_DC", 200⟩, ⟨"P_AC", 200⟩,
   ⟨"YieldDay", 300⟩, ⟨"YieldTotal", 2500⟩]

/-- A single-inverter DTU response. -/
def oneInverterDtu : DtuData :=
  [fullPayload]

/-- A two-inverter DTU response. -/
def twoInverterDtu : DtuData :=
  [fullPayload, smallPayload]

/-- The same two inverters in the opposite order. -/
def twoInverterDtuSwapped : DtuData :=
  [smallPayload, fullPayload]

/-- An inverter whose `P_DC` / `U_DC` / `I_DC` counts disagree (2, 3, 2). -/
def mismatchedDtu : DtuData :=
  [[⟨"P_DC", 1⟩, ⟨"P_DC", 2⟩, ⟨"U_DC", 3⟩, ⟨"U_DC", 4⟩, ⟨"U_DC", 5⟩,
    ⟨"I_DC", 6⟩, ⟨"I_DC", 7⟩]]

/-- A meter payload whose sub-object sits under a named sensor id, with all
four fields present. -/
def namedKeyMeter : TasmotaData :=
  [("SML", ⟨some 5, some 6, some 7, some "X123"⟩)]

/-- A meter payload under the empty-string key, lacking `Meter_Number`. -/
def noNumberMeter : TasmotaData :=
  [("", ⟨some 1, some 2, some 3, none⟩)]

/-! ### C1 -/

/-- C1: for an inverter payload with `N ≥ 1` entries of field code `P_DC`
(at a valid inverter index), `num_cells` reports exactly `N - 1` and
`cell_power` returns exactly the first `N - 1` `P_DC` values in arrival
order, excluding the last entry. -/
theorem c1_num_cells_and_cell_power (dtu : DtuData) (i : Nat)
    (hi : i < dtu.length)
    (hN : 1 ≤ (fieldVals "P_DC" (dtu.getD i [])).length) :
    num_cells dtu i =
      .ok (((fieldVals "P_DC" (dtu.getD i [])).length : Int) - 1) ∧
    cell_power dtu i =
      .ok ((fieldVals "P_DC" (dtu.getD i [])).take
            ((fieldVals "P_DC" (dtu.getD i [])).length - 1)) ∧
    ∃ l, cell_power dtu i = .ok l ∧
      l.length = (fieldVals "P_DC" (dtu.getD i [])).length - 1 := by
  have hne : fieldVals "P_DC" (dtu.getD i []) ≠ [] := by
    intro h; rw [h] at hN; simp at hN
  have hc := cellSeries_pos "P_DC" dtu i hi hne
  refine ⟨num_cells_eq dtu i hi, ?_, ?_⟩
  · rw [cell_power, hc, List.dropLast_eq_take]
  · exact ⟨_, by rw [cell_power, hc], List.length_dropLast _⟩

/-- C1 witness: the spec's scenario inverter (`P_DC` values 100, 50, 150)
has 2 cells and cell powers `[100, 50]`. -/
theorem c1_witness :
    0 < scenarioDtu.length ∧
    1 ≤ (fieldVals "P_DC" (scenarioDtu.getD 0 [])).length ∧
    (num_cells scenarioDtu 0 =
       .ok (((fieldVals "P_DC" (scenarioDtu.getD 0 [])).length : Int) - 1) ∧
     cell_power scenarioDtu 0 =
       .ok ((fieldVals "P_DC" (scenarioDtu.getD 0 [])).take
             ((fieldVals "P_DC" (scenarioDtu.getD 0 [])).length - 1)) ∧
     ∃ l, cell_power scenarioDtu 0 = .ok l ∧
       l.length = (fieldVals "P_DC" (scenarioDtu.getD 0 [])).length - 1) ∧
    num_cells scenarioDtu 0 = .ok 2 ∧
    cell_power scenarioDtu 0 = .ok [100, 50] := by
  refine ⟨by decide, by decide,
    c1_num_cells_and_cell_power scenarioDtu 0 (by decide) (by decide),
    ?_, ?_⟩
  · rfl
  · rfl

/-! ### C2 -/

/-- C2 counterexample: an inverter whose `P_DC`, `U_DC`, `I_DC` counts are
2, 3, 2 — the per-cell series lengths disagree, yet no accessor fails:
`cell_power`, `cell_voltage`, `cell_current` all succeed (returning series
of different lengths). The code has no `MalformedInverterData` check. -/
theorem c2_counterexample :
    (fieldVals "P_DC" (mismatchedDtu.getD 0 [])).length = 2 ∧
    (fieldVals "U_DC" (mismatchedDtu.getD 0 [])).length = 3 ∧
    (fieldVals "I_DC" (mismatchedDtu.getD 0 [])).length = 2 ∧
    cell_power mismatchedDtu 0 = .ok [1] ∧
    cell_voltage mismatchedDtu 0 = .ok [3, 4] ∧
    cell_current mismatchedDtu 0 = .ok [6] :=
  ⟨rfl, rfl, rfl, rfl, rfl, rfl⟩

/-- C2 amended: decoding never cross-checks the `P_DC` / `U_DC` / `I_DC`
series lengths — whenever each of the three codes has at least one entry
at a valid inverter index, all three per-cell accessors succeed, even when
the counts disagree; the only decode-time failure of this kind is the
index check: requesting an inverter index at or beyond the number of
inverters makes every accessor fail with the index-out-of-range error. -/
theorem c2_no_length_check_only_index_check (dtu : DtuData) (i : Nat) :
    (dtu.length ≤ i →
      num_cells dtu i = .error .inverterIndexOutOfRange ∧
      cell_power dtu i = .error .inverterIndexOutOfRange ∧
      cell_voltage dtu i = .error .inverterIndexOutOfRange ∧
      cell_current dtu i = .error .inverterIndexOutOfRange) ∧
    (i < dtu.length →
      1 ≤ (fieldVals "P_DC" (dtu.getD i [])).length →
      1 ≤ (fieldVals "U_DC" (dtu.getD i [])).length →
      1 ≤ (fieldVals "I_DC" (dtu.getD i [])).length →
      (∃ lp, cell_power dtu i = .ok lp) ∧
      (∃ lv, cell_voltage dtu i = .ok lv) ∧
      (∃ lc, cell_current dtu i = .ok lc)) := by
  constructor
  · intro hge
    exact ⟨num_cells_oob dtu i hge, cellSeries_oob "P_DC" dtu i hge,
      cellSeries_oob "U_DC" dtu i hge, cellSeries_oob "I_DC" dtu i hge⟩
  · intro hi hp hu hcur
    exact ⟨(cellSeries_ok_iff "P_DC" dtu i hi).mpr hp,
      (cellSeries_ok_iff "U_DC" dtu i hi).mpr hu,
      (cellSeries_ok_iff "I_DC" dtu i hi).mpr hcur⟩

/-- C2 amended witness: at the mismatched inverter (counts 2, 3, 2) all
three accessors succeed; at index 1 (out of range for the one-inverter
response) every accessor reports the index error. -/
theorem c2_witness :
    ((∃ lp, cell_power mismatchedDtu 0 = .ok lp) ∧
     (∃ lv, cell_voltage mismatchedDtu 0 = .ok lv) ∧
     (∃ lc, cell_current mismatchedDtu 0 = .ok lc)) ∧
    (num_cells mismatchedDtu 1 = .error .inverterIndexOutOfRange ∧
     cell_power mismatchedDtu 1 = .error .inverterIndexOutOfRange ∧
     cell_voltage mismatchedDtu 1 = .error .inverterIndexOutOfRange ∧
     cell_current mismatchedDtu 1 = .error .inverterIndexOutOfRange) :=
  ⟨(c2_no_length_check_only_index_check mismatchedDtu 0).2
      (by decide) (by decide) (by decide) (by decide),
   (c2_no_length_check_only_index_check mismatchedDtu 1).1 (by decide)⟩

/-! ### C9 -/

/-- C9: the decoded irradiation series contains every `Irradiation` entry
in arrival order with no trailing entry excluded, while the power,
voltage, current, yield-day and yield-total series each drop their last
entry (their length is one less than the entry count). -/
theorem c9_irradiation_keeps_all_entries (dtu : DtuData) (i : Nat)
    (hi : i < dtu.length) :
    cell_irradiation dtu i = .ok (fieldVals "Irradiation" (dtu.getD i [])) ∧
    (1 ≤ (fieldVals "P_DC" (dtu.getD i [])).length →
      ∃ l, cell_power dtu i = .ok l ∧
        l.length = (fieldVals "P_DC" (dtu.getD i [])).length - 1) ∧
    (1 ≤ (fieldVals "U_DC" (dtu.getD i [])).length →
      ∃ l, cell_voltage dtu i = .ok l ∧
        l.length = (fieldVals "U_DC" (dtu.getD i [])).length - 1) ∧
    (1 ≤ (fieldVals "I_DC" (dtu.getD i [])).length →
      ∃ l, cell_current dtu i = .ok l ∧
        l.length = (fieldVals "I_DC" (dtu.getD i [])).length - 1) ∧
    (1 ≤ (fieldVals "YieldDay" (dtu.getD i [])).length →
      ∃ l, cell_yield_day dtu i = .ok l ∧
        l.length = (fieldVals "YieldDay" (dtu.getD i [])).length - 1) ∧
    (1 ≤ (fieldVals "YieldTotal" (dtu.getD i [])).length →
      ∃ l, cell_yield_total dtu i = .ok l ∧
        l.length = (fieldVals "YieldTotal" (dtu.getD i [])).length - 1) := by
  refine ⟨?_, fun h => cellSeries_drops_last "P_DC" dtu i hi h,
    fun h => cellSeries_drops_last "U_DC" dtu i hi h,
    fun h => cellSeries_drops_last "I_DC" dtu i hi h,
    fun h => cellSeries_drops_last "YieldDay" dtu i hi h,
    fun h => cellSeries_drops_last "YieldTotal" dtu i hi h⟩
  unfold cell_irradiation
  rw [if_neg (by simp [num_inverter]; omega)]

/-- C9 witness: the fully-populated inverter keeps both of its
`Irradiation` entries (`[95, 97]`) while its two-entry `P_DC` series is
cut to one element. -/
theorem c9_witness :
    0 < oneInverterDtu.length ∧
    cell_irradiation oneInverterDtu 0 = .ok [95, 97] ∧
    cell_power oneInverterDtu 0 = .ok [100] := by
  refine ⟨by decide, ?_, ?_⟩
  · have h := (c9_irradiation_keeps_all_entries oneInverterDtu 0 (by decide)).1
    rw [h]; rfl
  · rfl

/-! ### C10 -/

/-- C10: at a valid inverter index, with zero `P_DC` entries `num_cells`
returns `-1` without failing; each per-cell accessor fails with the
pop-from-empty-list error when its own field code has zero entries, and
succeeds exactly when that code has at least one entry. -/
theorem c10_zero_entries_behavior (dtu : DtuData) (i : Nat)
    (hi : i < dtu.length) :
    ((fieldVals "P_DC" (dtu.getD i [])).length = 0 →
      num_cells dtu i = .ok (-1)) ∧
    (fieldVals "P_DC" (dtu.getD i []) = [] →
      cell_power dtu i = .error .popFromEmptyList) ∧
    (fieldVals "U_DC" (dtu.getD i []) = [] →
      cell_voltage dtu i = .error .popFromEmptyList) ∧
    (fieldVals "I_DC" (dtu.getD i []) = [] →
      cell_current dtu i = .error .popFromEmptyList) ∧
    (fieldVals "YieldDay" (dtu.getD i []) = [] →
      cell_yield_day dtu i = .error .popFromEmptyList) ∧
    (fieldVals "YieldTotal" (dtu.getD i []) = [] →
      cell_yield_total dtu i = .error .popFromEmptyList) ∧
    ((∃ l, cell_power dtu i = .ok l) ↔
      1 ≤ (fieldVals "P_DC" (dtu.getD i [])).length) ∧
    ((∃ l, cell_voltage dtu i = .ok l) ↔
      1 ≤ (fieldVals "U_DC" (dtu.getD i [])).length) ∧
    ((∃ l, cell_current dtu i = .ok l) ↔
      1 ≤ (fieldVals "I_DC" (dtu.getD i [])).length) ∧
    ((∃ l, cell_yield_day dtu i = .ok l) ↔
      1 ≤ (fieldVals "YieldDay" (dtu.getD i [])).length) ∧
    ((∃ l, cell_yield_total dtu i = .ok l) ↔
      1 ≤ (fieldVals "YieldTotal" (dtu.getD i [])).length) := by
  refine ⟨?_, fun h => cellSeries_nil "P_DC" dtu i hi h,
    fun h => cellSeries_nil "U_DC" dtu i hi h,
    fun h => cellSeries_nil "I_DC" dtu i hi h,
    fun h => cellSeries_nil "YieldDay" dtu i hi h,
    fun h => cellSeries_nil "YieldTotal" dtu i hi h,
    cellSeries_ok_iff "P_DC" dtu i hi, cellSeries_ok_iff "U_DC" dtu i hi,
    cellSeries_ok_iff "I_DC" dtu i hi, cellSeries_ok_iff "YieldDay" dtu i hi,
    cellSeries_ok_iff "YieldTotal" dtu i hi⟩
  intro h
  rw [num_cells_eq dtu i hi, h]
  rfl

/-- C10 witness: the scenario inverter has no `I_DC`, `YieldDay`,
`YieldTotal` or `Irradiation` entries — `cell_current` fails with the
pop-from-empty-list error while `num_cells` still answers (`2`). -/
theorem c10_witness :
    0 < scenarioDtu.length ∧
    fieldVals "I_DC" (scenarioDtu.getD 0 []) = [] ∧
    cell_current scenarioDtu 0 = .error .popFromEmptyList ∧
    num_cells scenarioDtu 0 = .ok 2 := by
  refine ⟨by decide, by decide, ?_, by rfl⟩
  exact (c10_zero_entries_behavior scenarioDtu 0 (by decide)).2.2.2.1 (by decide)

/-! ### C3 -/

/-- C3: in every successful cycle, the aggregate yield sums equal the
arithmetic sum over inverters of the raw watt-hour value (the last
`YieldDay` / `YieldTotal` entry of each inverter) divided by 1000 — the
division is applied exactly once, on each value, never twice. -/
theorem c3_yield_sums_divided_once (dtu : DtuData)
    (tasmota : Option TasmotaData) (r : DumpResult)
    (h : dump_to_db dtu tasmota = .ok r) :
    r.sumRow.yieldDaySum = (dtu.map (rawLast "YieldDay")).sum / 1000 ∧
    r.sumRow.yieldTotalSum = (dtu.map (rawLast "YieldTotal")).sum / 1000 := by
  obtain ⟨-, h2, h3⟩ := dump_ok_sums dtu tasmota r h
  constructor
  · rw [h2, ← sum_map_div (dtu.map (rawLast "YieldDay")) 1000, List.map_map]
    rfl
  · rw [h3, ← sum_map_div (dtu.map (rawLast "YieldTotal")) 1000, List.map_map]
    rfl

/-- The cycle result for `twoInverterDtu` with no meter data, written with
the same unreduced arithmetic the code produces. -/
def twoInverterResult : DumpResult :=
  ⟨[⟨0, 1, 150, 500 / 1000, 1500 / 1000⟩,
    ⟨1, 1, 200, 300 / 1000, 2500 / 1000⟩],
   ⟨150 + (200 + 0), 500 / 1000 + (300 / 1000 + 0),
    1500 / 1000 + (2500 / 1000 + 0)⟩,
   none, some (.unboundLocal "power_in")⟩

/-- C3 witness: day yields 500 Wh and 300 Wh and total yields 1500 Wh and
2500 Wh aggregate to 0.8 kWh and 4 kWh, matching one single division of
the raw sums by 1000. -/
theorem c3_witness :
    dump_to_db twoInverterDtu none = .ok twoInverterResult ∧
    (twoInverterResult.sumRow.yieldDaySum =
       (twoInverterDtu.map (rawLast "YieldDay")).sum / 1000 ∧
     twoInverterResult.sumRow.yieldTotalSum =
       (twoInverterDtu.map (rawLast "YieldTotal")).sum / 1000) ∧
    twoInverterResult.sumRow.yieldDaySum = 4 / 5 ∧
    twoInverterResult.sumRow.yieldTotalSum = 4 := by
  refine ⟨rfl,
    c3_yield_sums_divided_once twoInverterDtu none twoInverterResult rfl,
    ?_, ?_⟩
  · norm_num [twoInverterResult]
  · norm_num [twoInverterResult]

/-! ### C4 -/

/-- C4 (code bug): with zero inverters the accumulated sums are all zero,
but the `sum_data = (timestamp, power_sum, ...)` line reads the loop-local
`timestamp`, which the never-entered loop never assigned — the call raises
`UnboundLocalError` before anything is committed, instead of recording
zero sums. -/
theorem c4_empty_inverter_list_raises (tasmota : Option TasmotaData) :
    dump_to_db [] tasmota = .error (.unboundLocal "timestamp") :=
  rfl

/-! ### C5 -/

/-- The cycle result for `oneInverterDtu` with the named-key meter
payload: the meter row holds only defaults. -/
def namedKeyResult : DumpResult :=
  ⟨[⟨0, 1, 150, 500 / 1000, 1500 / 1000⟩],
   ⟨150 + 0, 500 / 1000 + 0, 1500 / 1000 + 0⟩,
   some ⟨0, 0, 0, ""⟩, none⟩

/-- C5 counterexample: the fetched meter payload stores all four fields
under the named sensor id `"SML"`, yet the stored meter row holds the
defaults `(0, 0, 0, "")`: `dict.get("", {})` consults only the
empty-string key, so extraction does not work "regardless of whether that
sub-object's key is the empty string or a named sensor id". -/
theorem c5_counterexample :
    namedKeyMeter.lookup "SML" = some ⟨some 5, some 6, some 7, some "X123"⟩ ∧
    dump_to_db oneInverterDtu (some namedKeyMeter) = .ok namedKeyResult ∧
    namedKeyResult.meterRow = some ⟨0, 0, 0, ""⟩ ∧
    (5 : ℚ) ≠ 0 :=
  ⟨rfl, rfl, rfl, by norm_num⟩

/-- C5 amended: for every successfully fetched (non-empty) meter payload,
the four fields are extracted from the sub-object under the empty-string
key only, each missing field defaulting to zero (numeric) or the empty
string (identifier); when the sub-object sits under a named sensor id the
empty-string lookup finds nothing and all four fields take their
defaults. -/
theorem c5_meter_fields_from_empty_key (dtu : DtuData) (d : TasmotaData)
    (r : DumpResult) (hd : d ≠ [])
    (h : dump_to_db dtu (some d) = .ok r) :
    r.meterRow =
      some ⟨((d.lookup "").getD emptyInner).total_out.getD 0,
            ((d.lookup "").getD emptyInner).total_in.getD 0,
            ((d.lookup "").getD emptyInner).power_in.getD 0,
            ((d.lookup "").getD emptyInner).meter_number.getD ""⟩ := by
  obtain ⟨-, -, -, hm, -⟩ := dump_ok_parts dtu (some d) r h
  have hne : ¬(d.isEmpty = true) := by simp [List.isEmpty_iff, hd]
  rw [hm]
  simp only [mkMeterRow]
  rw [if_neg hne]
  rfl

/-- C5 amended witness: at the named-key payload the empty-string lookup
misses and the stored row is all defaults. -/
theorem c5_witness :
    namedKeyMeter ≠ [] ∧
    namedKeyResult.meterRow =
      some ⟨((namedKeyMeter.lookup "").getD emptyInner).total_out.getD 0,
            ((namedKeyMeter.lookup "").getD emptyInner).total_in.getD 0,
            ((namedKeyMeter.lookup "").getD emptyInner).power_in.getD 0,
            ((namedKeyMeter.lookup "").getD emptyInner).meter_number.getD ""⟩ :=
  ⟨by decide,
   c5_meter_fields_from_empty_key oneInverterDtu namedKeyMeter namedKeyResult
     (by decide) rfl⟩

/-! ### C6 -/

/-- C6 (code bug): when the meter fetch failed (`tasmota_data` is `None`)
and the inverter fetch succeeded, the per-inverter row and the aggregate
row are built and committed and no meter row is written — but the
post-commit logging reads `power_in`, which the skipped meter branch never
assigned, so the call raises `UnboundLocalError` after the commit instead
of finishing the cycle cleanly. -/
theorem c6_meter_fetch_failure_behavior :
    dump_to_db oneInverterDtu none =
      .ok ⟨[⟨0, 1, 150, 500 / 1000, 1500 / 1000⟩],
           ⟨150 + 0, 500 / 1000 + 0, 1500 / 1000 + 0⟩,
           none, some (.unboundLocal "power_in")⟩ :=
  rfl

/-! ### C7 -/

/-- C7: permuting the inverter list does not change the aggregate
`power_sum`, `yield_day_sum` or `yield_total_sum`: two successful cycles
over permuted inverter lists store the same aggregate row. -/
theorem c7_sums_permutation_invariant (dtu1 dtu2 : DtuData)
    (t1 t2 : Option TasmotaData) (r1 r2 : DumpResult)
    (hperm : dtu1.Perm dtu2)
    (h1 : dump_to_db dtu1 t1 = .ok r1)
    (h2 : dump_to_db dtu2 t2 = .ok r2) :
    r1.sumRow = r2.sumRow := by
  obtain ⟨hp1, hd1, ht1⟩ := dump_ok_sums dtu1 t1 r1 h1
  obtain ⟨hp2, hd2, ht2⟩ := dump_ok_sums dtu2 t2 r2 h2
  have e1 := (hperm.map (fun p => rawLast "P_AC" p)).sum_eq
  have e2 := (hperm.map (fun p => rawLast "YieldDay" p / 1000)).sum_eq
  have e3 := (hperm.map (fun p => rawLast "YieldTotal" p / 1000)).sum_eq
  obtain ⟨rows1, ⟨a1, b1, c1⟩, m1, l1⟩ := r1
  obtain ⟨rows2, ⟨a2, b2, c2⟩, m2, l2⟩ := r2
  have g1 : a1 = (dtu1.map (fun p => rawLast "P_AC" p)).sum := hp1
  have g2 : b1 = (dtu1.map (fun p => rawLast "YieldDay" p / 1000)).sum := hd1
  have g3 : c1 = (dtu1.map (fun p => rawLast "YieldTotal" p / 1000)).sum := ht1
  have g4 : a2 = (dtu2.map (fun p => rawLast "P_AC" p)).sum := hp2
  have g5 : b2 = (dtu2.map (fun p => rawLast "YieldDay" p / 1000)).sum := hd2
  have g6 : c2 = (dtu2.map (fun p => rawLast "YieldTotal" p / 1000)).sum := ht2
  show SumRow.mk a1 b1 c1 = SumRow.mk a2 b2 c2
  rw [g1, g2, g3, g4, g5, g6, e1, e2, e3]

/-- The cycle result for the swapped two-inverter list. -/
def swappedResult : DumpResult :=
  ⟨[⟨0, 1, 200, 300 / 1000, 2500 / 1000⟩,
    ⟨1, 1, 150, 500 / 1000, 1500 / 1000⟩],
   ⟨200 + (150 + 0), 300 / 1000 + (500 / 1000 + 0),
    2500 / 1000 + (1500 / 1000 + 0)⟩,
   none, some (.unboundLocal "power_in")⟩

/-- C7 witness: the two-inverter list and its reversal store the same
aggregate row. -/
theorem c7_witness :
    twoInverterDtu.Perm twoInverterDtuSwapped ∧
    twoInverterResult.sumRow = swappedResult.sumRow :=
  ⟨by decide,
   c7_sums_permutation_invariant twoInverterDtu twoInverterDtuSwapped
     none none twoInverterResult swappedResult (by decide) rfl rfl⟩

/-! ### C8 -/

theorem dump_ok_build (dtu : DtuData) (tasmota : Option TasmotaData)
    (rows : List InverterRow)
    (hrows : processRows dtu (List.range (num_inverter dtu)) = .ok rows)
    (hne : num_inverter dtu ≠ 0) :
    dump_to_db dtu tasmota =
      .ok ⟨rows,
           ⟨(rows.map InverterRow.power).sum,
            (rows.map InverterRow.yieldDay).sum,
            (rows.map InverterRow.yieldTotal).sum⟩,
           mkMeterRow tasmota,
           if (mkMeterRow tasmota).isNone
           then some (.unboundLocal "power_in") else none⟩ := by
  unfold dump_to_db
  split
  next e heq =>
    rw [hrows] at heq
    exact absurd heq (by simp)
  next rows2 heq =>
    rw [hrows] at heq
    injection heq with heq2
    subst heq2
    rw [if_neg hne]

/-- C8: when the meter payload was fetched (non-empty) but its inner
object lacks `Meter_Number`, the cycle stores the empty string as the
meter identifier and raises no exception at all (in particular the
post-commit logging finds `power_in` bound). -/
theorem c8_missing_meter_number_defaults (dtu : DtuData) (d : TasmotaData)
    (rows : List InverterRow)
    (hrows : processRows dtu (List.range (num_inverter dtu)) = .ok rows)
    (hne : num_inverter dtu ≠ 0) (hd : d ≠ [])
    (hnum : (innerOf d).meter_number = none) :
    ∃ r, dump_to_db dtu (some d) = .ok r ∧
      r.meterRow.map MeterRow.meterNumber = some "" ∧
      r.logError = none := by
  have hdne : ¬(d.isEmpty = true) := by simp [List.isEmpty_iff, hd]
  have hmk : mkMeterRow (some d) =
      some ⟨(innerOf d).total_out.getD 0, (innerOf d).total_in.getD 0,
            (innerOf d).power_in.getD 0, (innerOf d).meter_number.getD ""⟩ := by
    simp only [mkMeterRow]
    rw [if_neg hdne]
  refine ⟨_, dump_ok_build dtu (some d) rows hrows hne, ?_, ?_⟩
  · show (mkMeterRow (some d)).map MeterRow.meterNumber = some ""
    rw [hmk, hnum]
    rfl
  · show (if (mkMeterRow (some d)).isNone
          then some (AqError.unboundLocal "power_in") else none) =
        (none : Option AqError)
    rw [hmk]
    rfl

/-- C8 witness: the empty-string-keyed meter payload lacking
`Meter_Number` yields the empty identifier and a clean cycle. -/
theorem c8_witness :
    processRows oneInverterDtu (List.range (num_inverter oneInverterDtu)) =
      .ok [⟨0, 1, 150, 500 / 1000, 1500 / 1000⟩] ∧
    (innerOf noNumberMeter).meter_number = none ∧
    ∃ r, dump_to_db oneInverterDtu (some noNumberMeter) = .ok r ∧
      r.meterRow.map MeterRow.meterNumber = some "" ∧
      r.logError = none :=
  ⟨rfl, rfl,
   c8_missing_meter_number_defaults oneInverterDtu noNumberMeter
     [⟨0, 1, 150, 500 / 1000, 1500 / 1000⟩] rfl (by decide) (by decide) rfl⟩

end Aquisition
